import Mathlib

/-!
Verification of the orchestration core of `AbstractCardiacProblem`
(heart/src/problem/AbstractCardiacProblem.cpp) as a shallow embedding.

Doubles are modelled as rationals (exact arithmetic); PETSc `Vec`s are
modelled as identifiers plus contents, with an explicit free-log so that
double-free properties are provable; exceptions become `Except` values.
-/

namespace Chaste

/-- Numeric type standing in for the C++ `double`. -/
abbrev R := ℚ

/-- The tolerance `1e-10` appearing in `PreSolveChecks`. -/
def tol : R := 1 / 10 ^ 10

/-- C's `round`: round half away from zero. -/
def cRound (x : R) : ℤ := if 0 ≤ x then ⌊x + 1/2⌋ else -⌊1/2 - x⌋

/-- The exceptions thrown by the modelled code paths. -/
inductive ChasteError where
  /-- "Cardiac tissue is null, Initialise() probably hasn't been called" -/
  | tissueNull : ChasteError
  /-- "End time should be in the future" -/
  | endTimeNotFuture : ChasteError
  /-- "Either explicitly specify not to print output ..." -/
  | noOutputSettings : ChasteError
  /-- "PDE timestep does not seem to divide end time - check parameters" -/
  | pdeTimestepDoesNotDivideEndTime : ChasteError
  /-- "Attempting to extend (file) with results from time = (current), but it
  already contains results up to time = (last)." -/
  | resumeConflict (lastTime currentTime : R) : ChasteError
  /-- An exception propagated out of `mpSolver->Solve()`. -/
  | solverFailure : ChasteError
  /-- "No mesh given: define it in XML parameters file or call SetMesh()" -/
  | noMeshGiven : ChasteError
  /-- A C `assert` firing (models `assert(mpSolver == nullptr)`). -/
  | assertionFailure : ChasteError
deriving DecidableEq, Repr

/-- The slice of `HeartConfig` read by the modelled code. -/
structure HeartConfig where
  simulationDuration : R
  pdeTimeStep : R
  printingTimeStep : R
  outputDirectory : String
  outputFilenamePrefix : String
deriving DecidableEq, Repr

/-- `AbstractCardiacProblem::PreSolveChecks`, lines 229-264 of the source:
tissue must exist, end time strictly in the future, output settings present
when printing, and the PDE timestep must divide the end time to within
`1e-10` (note: the check is `fabs(end_time - pde_time*round(end_time/pde_time))`,
i.e. it concerns the PDE timestep and the absolute end time). -/
def preSolveChecks (cfg : HeartConfig) (tissueBuilt : Bool) (printOutput : Bool)
    (currentTime : R) : Except ChasteError Unit :=
  if tissueBuilt = false then .error .tissueNull
  else if cfg.simulationDuration ≤ currentTime then .error .endTimeNotFuture
  else if printOutput = true ∧
      (cfg.outputDirectory = "" ∨ cfg.outputFilenamePrefix = "") then
    .error .noOutputSettings
  else if tol < |cfg.simulationDuration -
      cfg.pdeTimeStep * (cRound (cfg.simulationDuration / cfg.pdeTimeStep) : R)| then
    .error .pdeTimestepDoesNotDivideEndTime
  else .ok ()

/-- One entry of the vector built by `CreateInitialCondition` (lines 266-288).
The flat PETSc index `flat` corresponds to node `flat / dim` and stacked
unknown `flat % dim` (`DistributedVector::Stripe` layout).  `some x` means the
function assigned the value `x`; `none` means the entry was left at whatever
the distributed-vector allocation factory provided. -/
def icEntry (dim : Nat) (voltage : Nat → R) (flat : Nat) : Option R :=
  if flat % dim = 0 then some (voltage (flat / dim))
  else if dim = 2 ∧ flat % dim = 1 then some 0
  else none

/-- `AbstractCardiacProblem::CreateInitialCondition` (lines 266-288): a vector
of length `numNodes * dim`; stripe 0 is seeded from each node's cell model
voltage, stripe 1 is seeded to zero iff `PROBLEM_DIM == 2`, and all other
entries are untouched. -/
def createInitialCondition (dim numNodes : Nat) (voltage : Nat → R) :
    List (Option R) :=
  (List.range (numNodes * dim)).map (icEntry dim voltage)

/-- A PETSc `Vec`: an allocation identity (the pointer) plus its contents. -/
structure Vec where
  id : Nat
  data : List (Option R)
deriving DecidableEq, Repr

/-- Allocation state: a fresh-id counter and the log of `PetscTools::Destroy`
calls (most recent first, with multiplicity, so double frees are visible). -/
structure Heap where
  nextId : Nat
  freedIds : List Nat
deriving DecidableEq, Repr

/-- Allocate a fresh vector (`DistributedVectorFactory::CreateVec` or a new
vector returned by the solver). -/
def Heap.alloc (h : Heap) (data : List (Option R)) : Heap × Vec :=
  ({ h with nextId := h.nextId + 1 }, ⟨h.nextId, data⟩)

/-- `PetscTools::Destroy`: record a release of the vector's allocation. -/
def Heap.destroy (h : Heap) (v : Vec) : Heap :=
  { h with freedIds := v.id :: h.freedIds }

/-- The heap is safe when no allocation has been released more than once and
every released id was actually allocated. -/
def Heap.SafeFreed (h : Heap) : Prop :=
  h.freedIds.Nodup ∧ ∀ i ∈ h.freedIds, i < h.nextId

/-- The open `Hdf5DataWriter` handle: whether it was opened in extend mode and
the rows it holds (`WriteOneStep` + `AdvanceAlongUnlimitedDimension` append a
`(time, field-vector)` row). -/
structure WriterState where
  extending : Bool
  rows : List (R × List (Option R))
deriving DecidableEq, Repr

/-- The on-disk `.h5` checkpoint file: its committed rows. -/
structure H5File where
  rows : List (R × List (Option R))
deriving DecidableEq, Repr

/-- The environment of a `Solve()` call: the checkpoint file on disk (if any),
the per-iteration outcome of the external collective solver (`none` models
`mpSolver->Solve()` throwing, `some data` a freshly allocated result vector
with the given contents), and the cell factory's per-node voltages. -/
structure Env where
  file : Option H5File
  solverResult : Nat → Option (List (Option R))
  voltage : Nat → R
  numNodes : Nat

/-- `AbstractCardiacProblem::InitialiseWriter` (lines 810-886) up to the point
the `Hdf5DataWriter` is constructed.  `extend_file` starts as "a previous
solution exists"; it is cleared when the file does not exist; if the file
exists, its last recorded time must not exceed `mCurrentTime`, else the
resume-conflict `EXCEPTION` fires (before any writer is created).  On success
it returns the extend flag and the fresh writer (holding the existing rows in
extend mode, empty otherwise — define mode wipes and recreates the file). -/
def initialiseWriter (solutionExists : Bool) (file : Option H5File)
    (currentTime : R) : Except ChasteError (Bool × WriterState) :=
  if solutionExists = true then
    match file with
    | none => .ok (false, ⟨false, []⟩)
    | some f =>
      match (f.rows.map Prod.fst).getLast? with
      | some lastTime =>
        if currentTime < lastTime then
          .error (.resumeConflict lastTime currentTime)
        else .ok (true, ⟨true, f.rows⟩)
      | none => .ok (true, ⟨true, f.rows⟩)
  else .ok (false, ⟨false, []⟩)

/-- Modelled from the spec: the Time Stepper component (spec section 4.1);
its implementation (`TimeStepper.cpp`) is not among the provided sources.
With no additional stopping times (the base class supplies none), the next
boundary is `min(current + regular_interval, end)`. -/
structure TimeStepper where
  time : R
  endTime : R
  dt : R
deriving DecidableEq, Repr

/-- Modelled from the spec: `TimeStepper::IsTimeAtEnd` (terminal check). -/
def TimeStepper.isTimeAtEnd (s : TimeStepper) : Bool := decide (s.endTime ≤ s.time)

/-- Modelled from the spec: `TimeStepper::GetNextTime` with no extra stops. -/
def TimeStepper.getNextTime (s : TimeStepper) : R := min (s.time + s.dt) s.endTime

/-- Modelled from the spec: `TimeStepper::AdvanceOneTimeStep`. -/
def TimeStepper.advanceOneTimeStep (s : TimeStepper) : TimeStepper :=
  { s with time := s.getNextTime }

/-- `AbstractCardiacProblem::CloseFilesAndPostProcess` (lines 579-672): does
nothing unless output is printed; otherwise deletes the writer (committing its
rows to the file on disk) and runs the post-processing / conversion block.
Returns (writer handle, file, post-processing ran). -/
def closeFilesAndPostProcess (printOutput : Bool) (writer : Option WriterState)
    (file : Option H5File) : Option WriterState × Option H5File × Bool :=
  if printOutput = true then
    (none, (match writer with | some w => some ⟨w.rows⟩ | none => file), true)
  else (writer, file, false)

instance : DecidableEq (Except ChasteError Unit) := fun a b =>
  match a, b with
  | .ok (), .ok () => .isTrue rfl
  | .error x, .error y => if h : x = y then .isTrue (by rw [h]) else .isFalse (by simp [h])
  | .ok _, .error _ => .isFalse (by simp)
  | .error _, .ok _ => .isFalse (by simp)

/-- The observable state when `Solve()` returns or throws. -/
structure SolveOutcome where
  result : Except ChasteError Unit
  heap : Heap
  mSolution : Option Vec
  mpSolver : Option Unit
  solverDeleted : Bool
  mpWriter : Option WriterState
  writerCreated : Bool
  file : Option H5File
  mCurrentTime : R
  postProcessed : Bool
  failedAt : Option Nat
  icVec : Option Vec
deriving DecidableEq, Repr

/-- The mutable state threaded through the `while (!stepper.IsTimeAtEnd())`
loop of `Solve()` (lines 482-564). -/
structure LoopState where
  heap : Heap
  stepper : TimeStepper
  ic : Vec
  mSolution : Option Vec
  writer : Option WriterState
  mCurrentTime : R
  k : Nat
deriving Repr

/-- The solve loop (lines 482-564), plus the epilogue (lines 566-576).
`fuel` only bounds the number of iterations this model will unfold; `none`
means the bound was reached while the loop was still running.  Each
iteration: invoke the solver for window `[time, nextTime]`; on an exception,
delete the solver, destroy the initial condition only if it is a different
allocation from `mSolution`, close files / post-process, and rethrow; on
success, destroy the previous initial condition, rebind it to the new
solution, advance the stepper, update `mCurrentTime` and append one
checkpoint row when printing. -/
def solveLoop (env : Env) (printOutput : Bool) (icVec0 : Vec)
    (writerCreated : Bool) : Nat → LoopState → Option SolveOutcome
  | 0, _ => none
  | fuel + 1, s =>
    if s.stepper.isTimeAtEnd then
      -- delete mpSolver; mpSolver = nullptr; CloseFilesAndPostProcess()
      let cfp := closeFilesAndPostProcess printOutput s.writer env.file
      some {
        result := .ok (), heap := s.heap, mSolution := s.mSolution,
        mpSolver := none, solverDeleted := true,
        mpWriter := cfp.1, writerCreated := writerCreated, file := cfp.2.1,
        mCurrentTime := s.mCurrentTime, postProcessed := cfp.2.2,
        failedAt := none, icVec := some icVec0 }
    else
      match env.solverResult s.k with
      | none =>
        -- catch (const Exception& e): delete mpSolver; mpSolver = nullptr;
        -- if (initial_condition != mSolution) PetscTools::Destroy(initial_condition);
        -- CloseFilesAndPostProcess(); throw e;
        let heap1 :=
          if s.mSolution.map Vec.id ≠ some s.ic.id then s.heap.destroy s.ic
          else s.heap
        let cfp := closeFilesAndPostProcess printOutput s.writer env.file
        some {
          result := .error .solverFailure, heap := heap1,
          mSolution := s.mSolution, mpSolver := none, solverDeleted := true,
          mpWriter := cfp.1, writerCreated := writerCreated, file := cfp.2.1,
          mCurrentTime := s.mCurrentTime, postProcessed := cfp.2.2,
          failedAt := some s.k, icVec := some icVec0 }
      | some data =>
        -- mSolution = mpSolver->Solve(); PetscTools::Destroy(initial_condition);
        -- initial_condition = mSolution; stepper.AdvanceOneTimeStep();
        -- mCurrentTime = stepper.GetTime(); WriteOneStep + Advance if printing
        let av := s.heap.alloc data
        let heap2 := av.1.destroy s.ic
        let stepper1 := s.stepper.advanceOneTimeStep
        let writer1 :=
          if printOutput = true then
            s.writer.map (fun w =>
              { w with rows := w.rows ++ [(stepper1.time, av.2.data)] })
          else s.writer
        solveLoop env printOutput icVec0 writerCreated fuel
          { heap := heap2, stepper := stepper1, ic := av.2,
            mSolution := some av.2, writer := writer1,
            mCurrentTime := stepper1.time, k := s.k + 1 }

/-- The full orchestrator state on entry to `Solve()` / `Initialise()`. -/
structure ProblemState where
  meshSupplied : Bool
  tissueId : Option Nat
  printOutput : Bool
  mSolution : Option Vec
  mCurrentTime : R
  mpSolver : Option Unit
  heap : Heap
deriving Repr

/-- Line 414: `auto initial_condition = mSolution ? mSolution :
CreateInitialCondition();` — the heap is threaded for the allocation made in
the fresh case. -/
def chosenIC (dim : Nat) (env : Env) (st : ProblemState) : Heap × Vec :=
  match st.mSolution with
  | some v => (st.heap, v)
  | none => st.heap.alloc (createInitialCondition dim env.numNodes env.voltage)

/-- `AbstractCardiacProblem::Solve` (lines 377-577). Order of operations, as
in the source: `PreSolveChecks`; build the `TimeStepper`; (default boundary
conditions — no observable state here); `assert(mpSolver == nullptr)`;
`mpSolver = CreateSolver()`; choose the initial condition (`mSolution` if
present, else `CreateInitialCondition()`); if printing, `InitialiseWriter()`
— whose exception handler deletes the writer and the solver (leaving
`mpSolver` non-null) and destroys the initial condition only when it differs
from `mSolution` — then write the initial row unless resuming into an
extended file; finally run the loop. -/
def solve (cfg : HeartConfig) (env : Env) (dim : Nat) (st : ProblemState)
    (fuel : Nat) : Option SolveOutcome :=
  match preSolveChecks cfg st.tissueId.isSome st.printOutput st.mCurrentTime with
  | .error e =>
    some {
      result := .error e, heap := st.heap, mSolution := st.mSolution,
      mpSolver := st.mpSolver, solverDeleted := false, mpWriter := none,
      writerCreated := false, file := env.file,
      mCurrentTime := st.mCurrentTime, postProcessed := false,
      failedAt := none, icVec := none }
  | .ok () =>
    let stepper : TimeStepper :=
      ⟨st.mCurrentTime, cfg.simulationDuration, cfg.printingTimeStep⟩
    if st.mpSolver.isSome then
      -- assert(mpSolver == nullptr) fires
      some {
        result := .error .assertionFailure, heap := st.heap,
        mSolution := st.mSolution, mpSolver := st.mpSolver,
        solverDeleted := false, mpWriter := none, writerCreated := false,
        file := env.file, mCurrentTime := st.mCurrentTime,
        postProcessed := false, failedAt := none, icVec := none }
    else
      -- mpSolver = CreateSolver();
      -- initial_condition = mSolution ? mSolution : CreateInitialCondition();
      let hic : Heap × Vec := chosenIC dim env st
      if st.printOutput = true then
        match initialiseWriter st.mSolution.isSome env.file st.mCurrentTime with
        | .error e =>
          -- catch: delete mpWriter; mpWriter = nullptr; delete mpSolver;
          -- (mpSolver is NOT reset to null here)
          -- if (mSolution != initial_condition) Destroy(initial_condition); throw e
          let heap1 :=
            if st.mSolution.map Vec.id ≠ some hic.2.id then hic.1.destroy hic.2
            else hic.1
          some {
            result := .error e, heap := heap1, mSolution := st.mSolution,
            mpSolver := some (), solverDeleted := true, mpWriter := none,
            writerCreated := false, file := env.file,
            mCurrentTime := st.mCurrentTime, postProcessed := false,
            failedAt := none, icVec := some hic.2 }
        | .ok ew =>
          -- if (!(mSolution && extending_file)) { WriteOneStep(initial); Advance; }
          let w1 :=
            if ¬(st.mSolution.isSome = true ∧ ew.1 = true) then
              { ew.2 with rows := ew.2.rows ++ [(stepper.time, hic.2.data)] }
            else ew.2
          solveLoop env true hic.2 true fuel
            { heap := hic.1, stepper := stepper, ic := hic.2,
              mSolution := st.mSolution, writer := some w1,
              mCurrentTime := st.mCurrentTime, k := 0 }
      else
        solveLoop env false hic.2 false fuel
          { heap := hic.1, stepper := stepper, ic := hic.2,
            mSolution := st.mSolution, writer := none,
            mCurrentTime := st.mCurrentTime, k := 0 }

/-- `AbstractCardiacProblem::Initialise` (lines 116-210).  The mesh-from-
configuration machinery (`HeartConfig`, `GenericMeshReader`) is external to
the provided sources; whether it can supply a mesh is abstracted by the
oracle flag `canGetMeshFromConfig` (its failure is caught and rethrown as the
"No mesh given" `EXCEPTION`).  On success: the tissue is deleted and rebuilt
(`newTissueId` is the handle the fresh `CreateCardiacTissue()` returns), any
previous solution is destroyed so a fresh initial condition will be built,
and `mCurrentTime` is reset to zero. -/
def initialiseProblem (canGetMeshFromConfig : Bool) (newTissueId : Nat)
    (st : ProblemState) : Except ChasteError ProblemState :=
  if st.meshSupplied = false ∧ canGetMeshFromConfig = false then
    .error .noMeshGiven
  else
    let heap1 :=
      match st.mSolution with
      | some v => st.heap.destroy v
      | none => st.heap
    .ok { st with tissueId := some newTissueId, mSolution := none,
                  mCurrentTime := 0, heap := heap1 }

/-- `std::string::find(pat)`: index of the first occurrence of `pat`, or
`none` for `npos`. -/
def findSeqFrom (pat : List Char) : List Char → Option Nat
  | [] => if pat.isPrefixOf ([] : List Char) then some 0 else none
  | c :: t =>
    if pat.isPrefixOf (c :: t) then some 0
    else (findSeqFrom pat t).map (· + 1)

/-- Accumulating loop of `std::stoi`: consume leading decimal digits. -/
def stoiLoop : List Char → Nat → Nat
  | c :: t, acc => if c.isDigit then stoiLoop t (acc * 10 + (c.toNat - 48)) else acc
  | [], acc => acc

/-- `std::stoi` restricted to the shapes the source can produce: parses the
leading run of decimal digits; `none` models the `std::invalid_argument`
exception when the string does not start with a digit. -/
def stoiOpt (s : List Char) : Option Nat :=
  match s with
  | c :: _ => if c.isDigit then some (stoiLoop s 0) else none
  | [] => none

/-- The literal `"__IDX__"` searched for in `WriteExtraVariablesOneStep`. -/
def idxPattern : List Char := ['_', '_', 'I', 'D', 'X', '_', '_']

/-- Name parsing in `WriteExtraVariablesOneStep` (lines 759-768): if
`"__IDX__"` does not occur, the cell index is 0 and the variable name is the
whole string; otherwise the name is the part before the suffix and the index
is `stoi` of the part after it. -/
def parseExtraVarName (full : List Char) : Option (Nat × List Char) :=
  match findSeqFrom idxPattern full with
  | none => some (0, full)
  | some i => (stoiOpt (full.drop (i + 7))).map (fun k => (k, full.take i))

/-- The per-node cell models exposed by the tissue: `GetCardiacCell`,
`GetCardiacCell2`, `GetCardiacCell3`, each answering
`GetAnyVariable(name, time)`. -/
structure CellLookup where
  getAnyVariable1 : Nat → List Char → R → R
  getAnyVariable2 : Nat → List Char → R → R
  getAnyVariable3 : Nat → List Char → R → R

/-- The value `WriteExtraVariablesOneStep` (lines 740-808) emits for one
requested variable at one locally owned node: bath-region nodes are padded
with `0.0` without consulting any cell model; otherwise the parsed cell index
(0, 1 or 2) selects which per-node cell model is asked for the variable.
`none` models the paths that throw or hit `NEVER_REACHED`. -/
def writeExtraVariableNodeValue (lk : CellLookup) (isBath : Nat → Bool)
    (currentTime : R) (full : List Char) (node : Nat) : Option R :=
  match parseExtraVarName full with
  | none => none
  | some kv =>
    if isBath node = true then some 0
    else
      match kv.1 with
      | 0 => some (lk.getAnyVariable1 node kv.2 currentTime)
      | 1 => some (lk.getAnyVariable2 node kv.2 currentTime)
      | 2 => some (lk.getAnyVariable3 node kv.2 currentTime)
      | _ + 3 => none

/-! ## Helper lemmas -/

theorem createInitialCondition_getElem (dim n : Nat) (voltage : Nat → R)
    (node p : Nat) (hn : node < n) (hp : p < dim) :
    (createInitialCondition dim n voltage)[node * dim + p]? =
      some (icEntry dim voltage (node * dim + p)) := by
  have hlt : node * dim + p < n * dim := by
    calc node * dim + p < node * dim + dim := Nat.add_lt_add_left hp _
      _ = (node + 1) * dim := (Nat.succ_mul node dim).symm
      _ ≤ n * dim := Nat.mul_le_mul_right dim hn
  unfold createInitialCondition
  rw [List.getElem?_map, List.getElem?_range hlt]
  rfl

theorem icEntry_mul_add (dim : Nat) (voltage : Nat → R) (node p : Nat)
    (hp : p < dim) :
    icEntry dim voltage (node * dim + p) =
      (if p = 0 then some (voltage node)
       else if dim = 2 then some 0 else none) := by
  have hdim : 0 < dim := Nat.lt_of_le_of_lt (Nat.zero_le p) hp
  have hmod : (node * dim + p) % dim = p := by
    rw [Nat.mul_comm node dim, Nat.mul_add_mod, Nat.mod_eq_of_lt hp]
  unfold icEntry
  rw [hmod]
  by_cases hp0 : p = 0
  · subst hp0
    have hdiv : (node * dim + 0) / dim = node := by
      rw [Nat.add_zero, Nat.mul_div_cancel _ hdim]
    rw [hdiv]
    simp
  · rw [if_neg hp0, if_neg hp0]
    by_cases hd2 : dim = 2
    · subst hd2
      have : p = 1 := by omega
      subst this
      simp
    · rw [if_neg hd2, if_neg (by simp [hd2])]

/-- C10: `CreateInitialCondition` assigns the second stacked unknown (to
zero) only when the problem has exactly two stacked unknowns; for the
instantiations with three or four stacked unknowns, every unknown beyond the
first is left unassigned by this function, keeping whatever value the
allocation factory provides (modelled as `none`). -/
theorem C10_second_unknown_assignment (n dim node p : Nat) (voltage : Nat → R)
    (hn : node < n) (hdim : dim = 3 ∨ dim = 4) (hp1 : 1 ≤ p) (hp : p < dim) :
    (createInitialCondition dim n voltage)[node * dim + p]? = some none ∧
    (createInitialCondition 2 n voltage)[node * 2 + 1]? = some (some 0) := by
  constructor
  · rw [createInitialCondition_getElem dim n voltage node p hn hp,
        icEntry_mul_add dim voltage node p hp]
    have hp0 : p ≠ 0 := by omega
    have hd2 : dim ≠ 2 := by rcases hdim with h | h <;> omega
    rw [if_neg hp0, if_neg hd2]
  · rw [createInitialCondition_getElem 2 n voltage node 1 hn (by omega),
        icEntry_mul_add 2 voltage node 1 (by omega)]
    simp

theorem C10_witness :
    (createInitialCondition 3 2 (fun _ => -83))[1 * 3 + 1]? = some none ∧
    (createInitialCondition 2 2 (fun _ => -83))[1 * 2 + 1]? = some (some 0) :=
  C10_second_unknown_assignment 2 3 1 1 (fun _ => -83) (by decide) (Or.inl rfl)
    (by decide) (by decide)

/-- C5 counterexample: running `Solve()` on a fresh three-unknown problem
(one node, voltage -83), the synthesized initial condition is
`[some (-83), none, none]`: its second stacked unknown (flat index 1) is NOT
seeded to zero — it is left at the allocation factory's value — refuting
"any second stacked unknown is seeded to zero" as stated. -/
theorem C5_counterexample :
    (solve ⟨1, 1, 1, "outdir", "res"⟩
        ⟨none, fun _ => some [some 7, some 7, some 7], fun _ => -83, 1⟩ 3
        ⟨true, some 0, false, none, 0, none, ⟨0, []⟩⟩ 2).bind
      SolveOutcome.icVec = some ⟨0, [some (-83), none, none]⟩ ∧
    ([some (-83), none, none] : List (Option R))[1]? = some none ∧
    (none : Option R) ≠ some 0 := by
  refine ⟨?_, by simp, by simp⟩
  norm_num [solve, solveLoop, chosenIC, preSolveChecks, initialiseWriter, createInitialCondition,
    icEntry, cRound, tol, TimeStepper.isTimeAtEnd, TimeStepper.getNextTime,
    TimeStepper.advanceOneTimeStep, Heap.alloc, Heap.destroy, closeFilesAndPostProcess,
    List.range, List.range.loop]

/-- C2 counterexample: with end time 1, current time 0, printing interval 1/2
(which evenly divides end − current: 1 − 0 = 2 · (1/2)) and PDE timestep
3/10, `PreSolveChecks` nevertheless rejects the run — the implemented
divisibility check is on the PDE timestep against the absolute end time, not
on the printing interval against (end − current) — and `Solve()` then
returns with no writer created, the file and heap untouched. -/
theorem C2_counterexample :
    (1 : R) - 0 = 2 * (1 / 2 : R) ∧
    preSolveChecks ⟨1, 3/10, 1/2, "outdir", "res"⟩ true true 0 =
      .error .pdeTimestepDoesNotDivideEndTime ∧
    solve ⟨1, 3/10, 1/2, "outdir", "res"⟩
        ⟨some ⟨[(0, [some 1])]⟩, fun _ => some [some 2], fun _ => 0, 1⟩ 1
        ⟨true, some 0, true, none, 0, none, ⟨0, []⟩⟩ 5 =
      some ⟨.error .pdeTimestepDoesNotDivideEndTime, ⟨0, []⟩, none, none, false,
        none, false, some ⟨[(0, [some 1])]⟩, 0, false, none, none⟩ := by
  refine ⟨by norm_num, ?_, ?_⟩
  · norm_num [preSolveChecks, cRound, tol, abs]
    simp
  · norm_num [solve, preSolveChecks, cRound, tol, abs]
    simp

/-- C2 amended: `PreSolveChecks` (given tissue, a future end time and valid
output settings) passes exactly when the PDE timestep evenly divides the
absolute end time to within tolerance 1e-10 — the printing interval and the
current time play no part in the divisibility test — and whenever it rejects,
`Solve()` returns that error with no resource created: no writer, the
checkpoint file and the heap untouched. -/
theorem C2_amended (cfg : HeartConfig) (printOutput : Bool) (t : R)
    (hend : t < cfg.simulationDuration)
    (hout : printOutput = true →
      cfg.outputDirectory ≠ "" ∧ cfg.outputFilenamePrefix ≠ "") :
    (preSolveChecks cfg true printOutput t = .ok () ↔
      |cfg.simulationDuration -
        cfg.pdeTimeStep *
          (cRound (cfg.simulationDuration / cfg.pdeTimeStep) : R)| ≤ tol) ∧
    ∀ (cfg2 : HeartConfig) (env : Env) (dim : Nat) (st : ProblemState)
      (fuel : Nat) (e : ChasteError),
      preSolveChecks cfg2 st.tissueId.isSome st.printOutput st.mCurrentTime =
        .error e →
      solve cfg2 env dim st fuel =
        some ⟨.error e, st.heap, st.mSolution, st.mpSolver, false, none, false,
          env.file, st.mCurrentTime, false, none, none⟩ := by
  constructor
  · unfold preSolveChecks
    rw [if_neg (by simp), if_neg (not_le.mpr hend), if_neg ?side]
    case side =>
      rintro ⟨hpo, hd⟩
      rcases hout hpo with ⟨h1, h2⟩
      rcases hd with h | h
      · exact h1 h
      · exact h2 h
    by_cases hdiv : tol <
        |cfg.simulationDuration -
          cfg.pdeTimeStep *
            (cRound (cfg.simulationDuration / cfg.pdeTimeStep) : R)|
    · rw [if_pos hdiv]
      simp [not_le.mpr hdiv]
    · rw [if_neg hdiv]
      simp [not_lt.mp hdiv]
  · intro cfg2 env dim st fuel e herr
    unfold solve
    rw [herr]

theorem C2_amended_witness :
    (preSolveChecks ⟨1, 1/2, 1/2, "outdir", "res"⟩ true true 0 = .ok () ↔
      |(1 : R) - (1/2 : R) * (cRound ((1 : R) / (1/2 : R)) : R)| ≤ tol) :=
  (C2_amended ⟨1, 1/2, 1/2, "outdir", "res"⟩ true 0 (by norm_num)
    (fun _ => ⟨by simp, by simp⟩)).1

/-- C9: the solver-handle null invariant is broken by the code on the
writer-initialisation failure path.  First run: resuming (a previous solution
exists at time 1/2) against a checkpoint file whose last recorded time is 3/4
makes `InitialiseWriter()` throw; the handler executes `delete mpSolver`
WITHOUT resetting the member, so `Solve()` exits with the solver deleted yet
`mpSolver` still non-null (dangling) — although the code itself asserts
`mpSolver == nullptr` on entry to `Solve()` and its resume-conflict message
invites calling `Solve()` again.  Second and third runs: the mid-loop
solver-failure path and the normal-completion path do reset `mpSolver` to
null as the claim states. -/
theorem C9_solver_handle_null_on_exit_paths :
    solve ⟨1, 1/10, 1/2, "outdir", "res"⟩
        ⟨some ⟨[(3/4, [some 2])]⟩, fun _ => none, fun _ => 0, 1⟩ 1
        ⟨true, some 0, true, some ⟨0, [some 5]⟩, 1/2, none, ⟨1, []⟩⟩ 1 =
      some ⟨.error (.resumeConflict (3/4) (1/2)), ⟨1, []⟩, some ⟨0, [some 5]⟩,
        some (), true, none, false, some ⟨[(3/4, [some 2])]⟩, 1/2, false, none,
        some ⟨0, [some 5]⟩⟩ ∧
    (solve ⟨1, 1, 1, "outdir", "res"⟩ ⟨none, fun _ => none, fun _ => 0, 1⟩ 1
        ⟨true, some 0, false, none, 0, none, ⟨0, []⟩⟩ 1).map
      SolveOutcome.mpSolver = some none ∧
    (solve ⟨1, 1, 1, "outdir", "res"⟩ ⟨none, fun _ => some [some 3], fun _ => 0, 1⟩
        1 ⟨true, some 0, false, none, 0, none, ⟨0, []⟩⟩ 3).map
      SolveOutcome.mpSolver = some none := by
  refine ⟨?_, ?_, ?_⟩
  · norm_num [solve, chosenIC, preSolveChecks, initialiseWriter, cRound, tol, abs]
    simp
  · norm_num [solve, solveLoop, chosenIC, preSolveChecks, createInitialCondition, icEntry,
      cRound, tol, abs, TimeStepper.isTimeAtEnd, Heap.alloc, Heap.destroy,
      closeFilesAndPostProcess, List.range, List.range.loop]
  · norm_num [solve, solveLoop, chosenIC, preSolveChecks, createInitialCondition, icEntry,
      cRound, tol, abs, TimeStepper.isTimeAtEnd, TimeStepper.getNextTime,
      TimeStepper.advanceOneTimeStep, Heap.alloc, Heap.destroy,
      closeFilesAndPostProcess, List.range, List.range.loop]

theorem solveLoop_icVec (env : Env) (po : Bool) (ic0 : Vec) (wc : Bool) :
    ∀ (fuel : Nat) (s : LoopState) (out : SolveOutcome),
      solveLoop env po ic0 wc fuel s = some out → out.icVec = some ic0 := by
  intro fuel
  induction fuel with
  | zero => intro s out h; simp [solveLoop] at h
  | succ n ih =>
    intro s out h
    rw [solveLoop] at h
    by_cases hend : s.stepper.isTimeAtEnd = true
    · rw [if_pos hend] at h
      injection h with h
      subst h
      rfl
    · rw [if_neg hend] at h
      cases hres : env.solverResult s.k with
      | none =>
        rw [hres] at h
        injection h with h
        subst h
        rfl
      | some data =>
        rw [hres] at h
        exact ih _ _ h

/-- Case analysis on the paths through `solve`: pre-solve rejection, entry
assertion, writer-initialisation failure, and entry into the loop (with or
without output). -/
theorem solve_path (cfg : HeartConfig) (env : Env) (dim : Nat)
    (st : ProblemState) (fuel : Nat) (out : SolveOutcome)
    (hrun : solve cfg env dim st fuel = some out) :
    (∃ e, preSolveChecks cfg st.tissueId.isSome st.printOutput st.mCurrentTime =
        .error e ∧
      out = ⟨.error e, st.heap, st.mSolution, st.mpSolver, false, none, false,
        env.file, st.mCurrentTime, false, none, none⟩) ∨
    (preSolveChecks cfg st.tissueId.isSome st.printOutput st.mCurrentTime =
        .ok () ∧ st.mpSolver.isSome = true ∧
      out = ⟨.error .assertionFailure, st.heap, st.mSolution, st.mpSolver,
        false, none, false, env.file, st.mCurrentTime, false, none, none⟩) ∨
    (preSolveChecks cfg st.tissueId.isSome st.printOutput st.mCurrentTime =
        .ok () ∧ st.mpSolver = none ∧
      ((st.printOutput = true ∧
        ∃ e, initialiseWriter st.mSolution.isSome env.file st.mCurrentTime =
            .error e ∧
          out = ⟨.error e,
            if st.mSolution.map Vec.id ≠ some (chosenIC dim env st).2.id then
              (chosenIC dim env st).1.destroy (chosenIC dim env st).2
            else (chosenIC dim env st).1,
            st.mSolution, some (), true, none, false, env.file,
            st.mCurrentTime, false, none, some (chosenIC dim env st).2⟩) ∨
       (st.printOutput = true ∧
        ∃ ew, initialiseWriter st.mSolution.isSome env.file st.mCurrentTime =
            .ok ew ∧
          solveLoop env true (chosenIC dim env st).2 true fuel
            ⟨(chosenIC dim env st).1,
             ⟨st.mCurrentTime, cfg.simulationDuration, cfg.printingTimeStep⟩,
             (chosenIC dim env st).2, st.mSolution,
             some (if ¬(st.mSolution.isSome = true ∧ ew.1 = true) then
                     { ew.2 with rows :=
                        ew.2.rows ++ [(st.mCurrentTime, (chosenIC dim env st).2.data)] }
                   else ew.2),
             st.mCurrentTime, 0⟩ = some out) ∨
       (st.printOutput = false ∧
        solveLoop env false (chosenIC dim env st).2 false fuel
          ⟨(chosenIC dim env st).1,
           ⟨st.mCurrentTime, cfg.simulationDuration, cfg.printingTimeStep⟩,
           (chosenIC dim env st).2, st.mSolution, none, st.mCurrentTime, 0⟩ =
          some out))) := by
  unfold solve at hrun
  cases hpre : preSolveChecks cfg st.tissueId.isSome st.printOutput
      st.mCurrentTime with
  | error e =>
    rw [hpre] at hrun
    injection hrun with hrun
    exact Or.inl ⟨e, rfl, hrun.symm⟩
  | ok u =>
    cases u
    rw [hpre] at hrun
    simp only at hrun
    by_cases hsv : st.mpSolver.isSome = true
    · rw [if_pos hsv] at hrun
      injection hrun with hrun
      exact Or.inr (Or.inl ⟨rfl, hsv, hrun.symm⟩)
    · rw [if_neg hsv] at hrun
      have hsv2 : st.mpSolver = none := by
        cases hx : st.mpSolver with
        | none => rfl
        | some v => rw [hx] at hsv; simp at hsv
      refine Or.inr (Or.inr ⟨rfl, hsv2, ?_⟩)
      by_cases hpo : st.printOutput = true
      · rw [if_pos hpo] at hrun
        cases hiw : initialiseWriter st.mSolution.isSome env.file
            st.mCurrentTime with
        | error e =>
          rw [hiw] at hrun
          injection hrun with hrun
          exact Or.inl ⟨hpo, e, rfl, hrun.symm⟩
        | ok ew =>
          rw [hiw] at hrun
          exact Or.inr (Or.inl ⟨hpo, ew, rfl, hrun⟩)
      · rw [if_neg hpo] at hrun
        have hpo2 : st.printOutput = false := by
          cases hx : st.printOutput
          · rfl
          · exact absurd hx hpo
        exact Or.inr (Or.inr ⟨hpo2, hrun⟩)

/-- C5 amended: `Solve()` uses the previous run's final field vector as the
initial condition whenever one exists (`mSolution` non-null); otherwise it
synthesizes a fresh one in which, for every node, the first stacked unknown
equals that node's cell model's membrane potential, the second stacked
unknown is seeded to zero exactly when the problem has two stacked unknowns,
and with three or more stacked unknowns every entry beyond the first keeps
the allocation factory's value (`none`). -/
theorem C5_amended (cfg : HeartConfig) (env : Env) (dim : Nat)
    (st : ProblemState) (fuel : Nat) (out : SolveOutcome)
    (hpre : preSolveChecks cfg st.tissueId.isSome st.printOutput
      st.mCurrentTime = .ok ())
    (hsolver : st.mpSolver = none)
    (hrun : solve cfg env dim st fuel = some out) :
    (∀ v, st.mSolution = some v → out.icVec = some v) ∧
    (st.mSolution = none →
      out.icVec = some ⟨st.heap.nextId,
        createInitialCondition dim env.numNodes env.voltage⟩) ∧
    (∀ node p, node < env.numNodes → p < dim →
      (createInitialCondition dim env.numNodes env.voltage)[node * dim + p]? =
        some (if p = 0 then some (env.voltage node)
              else if dim = 2 then some 0 else none)) := by
  have hic : out.icVec = some (chosenIC dim env st).2 := by
    rcases solve_path cfg env dim st fuel out hrun with
      ⟨e, he, _⟩ | ⟨_, hsv, _⟩ | ⟨_, _, hcase⟩
    · rw [hpre] at he
      cases he
    · rw [hsolver] at hsv
      simp at hsv
    · rcases hcase with ⟨_, e, _, hout⟩ | ⟨_, ew, _, hloop⟩ | ⟨_, hloop⟩
      · rw [hout]
      · exact solveLoop_icVec _ _ _ _ _ _ _ hloop
      · exact solveLoop_icVec _ _ _ _ _ _ _ hloop
  refine ⟨?_, ?_, ?_⟩
  · intro v hv
    rw [hic]
    unfold chosenIC
    rw [hv]
  · intro hv
    rw [hic]
    unfold chosenIC
    rw [hv]
    rfl
  · intro node p hn hp
    rw [createInitialCondition_getElem dim env.numNodes env.voltage node p hn hp,
        icEntry_mul_add dim env.voltage node p hp]

theorem C5_amended_witness :
    (⟨.ok (), ⟨2, [0]⟩, some ⟨1, [some 7, some 7]⟩, none, true, none, false,
        none, 1, false, none,
        some ⟨0, [some (-83), some 0]⟩⟩ : SolveOutcome).icVec =
      some ⟨0, createInitialCondition 2 1 (fun _ => -83)⟩ ∧
    (createInitialCondition 2 1 (fun _ => -83))[0 * 2 + 1]? = some (some 0) := by
  have hpre : preSolveChecks ⟨1, 1, 1, "outdir", "res"⟩
      ((⟨true, some 0, false, none, 0, none, ⟨0, []⟩⟩ :
        ProblemState).tissueId).isSome
      ((⟨true, some 0, false, none, 0, none, ⟨0, []⟩⟩ :
        ProblemState).printOutput)
      ((⟨true, some 0, false, none, 0, none, ⟨0, []⟩⟩ :
        ProblemState).mCurrentTime) = .ok () := by
    norm_num [preSolveChecks, cRound, tol, abs]
  have hrun : solve ⟨1, 1, 1, "outdir", "res"⟩
      ⟨none, fun _ => some [some 7, some 7], fun _ => -83, 1⟩ 2
      ⟨true, some 0, false, none, 0, none, ⟨0, []⟩⟩ 2 =
      some ⟨.ok (), ⟨2, [0]⟩, some ⟨1, [some 7, some 7]⟩, none, true, none,
        false, none, 1, false, none, some ⟨0, [some (-83), some 0]⟩⟩ := by
    norm_num [solve, solveLoop, chosenIC, preSolveChecks, initialiseWriter,
      createInitialCondition, icEntry, cRound, tol, abs,
      TimeStepper.isTimeAtEnd, TimeStepper.getNextTime,
      TimeStepper.advanceOneTimeStep, Heap.alloc, Heap.destroy,
      closeFilesAndPostProcess, List.range, List.range.loop]
  have h := C5_amended ⟨1, 1, 1, "outdir", "res"⟩
    ⟨none, fun _ => some [some 7, some 7], fun _ => -83, 1⟩ 2
    ⟨true, some 0, false, none, 0, none, ⟨0, []⟩⟩ 2
    ⟨.ok (), ⟨2, [0]⟩, some ⟨1, [some 7, some 7]⟩, none, true, none, false,
      none, 1, false, none, some ⟨0, [some (-83), some 0]⟩⟩ hpre rfl hrun
  refine ⟨h.2.1 rfl, ?_⟩
  have h3 := h.2.2 0 1 (by decide) (by decide)
  simpa using h3

/-- Loop invariant for the release-at-most-once argument: the free-log is
sound, and the vectors currently named `initial_condition` and `mSolution`
are live allocations. -/
def LoopInv (s : LoopState) : Prop :=
  s.heap.SafeFreed ∧ s.ic.id ∉ s.heap.freedIds ∧ s.ic.id < s.heap.nextId ∧
  ∀ v, s.mSolution = some v →
    v.id ∉ s.heap.freedIds ∧ v.id < s.heap.nextId

theorem solveLoop_SafeFreed (env : Env) (po : Bool) (ic0 : Vec) (wc : Bool) :
    ∀ (fuel : Nat) (s : LoopState) (out : SolveOutcome), LoopInv s →
      solveLoop env po ic0 wc fuel s = some out → out.heap.SafeFreed := by
  intro fuel
  induction fuel with
  | zero => intro s out _ h; simp [solveLoop] at h
  | succ n ih =>
    intro s out hinv h
    obtain ⟨⟨hnd, hbound⟩, hic1, hic2, hsol⟩ := hinv
    rw [solveLoop] at h
    by_cases hend : s.stepper.isTimeAtEnd = true
    · rw [if_pos hend] at h
      injection h with h
      subst h
      exact ⟨hnd, hbound⟩
    · rw [if_neg hend] at h
      cases hres : env.solverResult s.k with
      | none =>
        rw [hres] at h
        injection h with h
        subst h
        by_cases hne : s.mSolution.map Vec.id ≠ some s.ic.id
        · simp only [if_pos hne]
          refine ⟨List.nodup_cons.mpr ⟨hic1, hnd⟩, ?_⟩
          intro i hi
          rcases List.mem_cons.mp hi with h1 | h1
          · rw [h1]; exact hic2
          · exact hbound i h1
        · simp only [if_neg hne]
          exact ⟨hnd, hbound⟩
      | some data =>
        rw [hres] at h
        have hfresh : s.heap.nextId ∉ s.heap.freedIds := fun hmem =>
          absurd (hbound _ hmem) (lt_irrefl _)
        refine ih _ _ ⟨⟨?_, ?_⟩, ?_, ?_, ?_⟩ h
        · exact List.nodup_cons.mpr ⟨hic1, hnd⟩
        · intro i hi
          rcases List.mem_cons.mp hi with h1 | h1
          · rw [h1]; exact Nat.lt_succ_of_lt hic2
          · exact Nat.lt_succ_of_lt (hbound i h1)
        · intro hmem
          rcases List.mem_cons.mp hmem with h1 | h1
          · exact absurd h1.symm (Nat.ne_of_lt hic2)
          · exact hfresh h1
        · exact Nat.lt_succ_self _
        · intro v hv
          injection hv with hv
          subst hv
          constructor
          · intro hmem
            rcases List.mem_cons.mp hmem with h1 | h1
            · exact absurd h1.symm (Nat.ne_of_lt hic2)
            · exact hfresh h1
          · exact Nat.lt_succ_self _

/-- C1: every underlying field-vector allocation is released at most once on
every path through `Solve()`: starting from a sound free-log with `mSolution`
live, the free-log after `Solve()` — whether it completed, failed in
`InitialiseWriter` (where the destroy is guarded by the
initial-condition-vs-solution distinctness check) or failed mid-loop (same
guard; in the normal loop the previous initial condition is destroyed exactly
once before rebinding) — still contains no allocation twice. -/
theorem C1_no_double_release (cfg : HeartConfig) (env : Env) (dim : Nat)
    (st : ProblemState) (fuel : Nat) (out : SolveOutcome)
    (hheap : st.heap.SafeFreed)
    (hsol : ∀ v, st.mSolution = some v →
      v.id ∉ st.heap.freedIds ∧ v.id < st.heap.nextId)
    (hrun : solve cfg env dim st fuel = some out) :
    out.heap.SafeFreed := by
  obtain ⟨hnd, hbound⟩ := hheap
  have hicinv : (chosenIC dim env st).1.SafeFreed ∧
      (chosenIC dim env st).2.id ∉ (chosenIC dim env st).1.freedIds ∧
      (chosenIC dim env st).2.id < (chosenIC dim env st).1.nextId ∧
      ∀ v, st.mSolution = some v →
        v.id ∉ (chosenIC dim env st).1.freedIds ∧
        v.id < (chosenIC dim env st).1.nextId := by
    unfold chosenIC
    cases hms : st.mSolution with
    | some v =>
      obtain ⟨h1, h2⟩ := hsol v hms
      refine ⟨⟨hnd, hbound⟩, h1, h2, ?_⟩
      intro w hw
      injection hw with hw
      subst hw
      exact ⟨h1, h2⟩
    | none =>
      have hfresh : st.heap.nextId ∉ st.heap.freedIds := fun hmem =>
        absurd (hbound _ hmem) (lt_irrefl _)
      refine ⟨⟨hnd, fun i hi => Nat.lt_succ_of_lt (hbound i hi)⟩,
        hfresh, Nat.lt_succ_self _, ?_⟩
      intro w hw
      exact nomatch hw
  obtain ⟨⟨hnd1, hbound1⟩, hlive1, hlive2, hsol1⟩ := hicinv
  rcases solve_path cfg env dim st fuel out hrun with
    ⟨e, _, hout⟩ | ⟨_, _, hout⟩ | ⟨_, _, hcase⟩
  · rw [hout]; exact ⟨hnd, hbound⟩
  · rw [hout]; exact ⟨hnd, hbound⟩
  · rcases hcase with ⟨_, e, _, hout⟩ | ⟨_, ew, _, hloop⟩ | ⟨_, hloop⟩
    · rw [hout]
      by_cases hne : st.mSolution.map Vec.id ≠ some (chosenIC dim env st).2.id
      · simp only [if_pos hne]
        refine ⟨List.nodup_cons.mpr ⟨hlive1, hnd1⟩, ?_⟩
        intro i hi
        rcases List.mem_cons.mp hi with h1 | h1
        · rw [h1]; exact hlive2
        · exact hbound1 i h1
      · simp only [if_neg hne]
        exact ⟨hnd1, hbound1⟩
    · exact solveLoop_SafeFreed _ _ _ _ _ _ _
        ⟨⟨hnd1, hbound1⟩, hlive1, hlive2, hsol1⟩ hloop
    · exact solveLoop_SafeFreed _ _ _ _ _ _ _
        ⟨⟨hnd1, hbound1⟩, hlive1, hlive2, hsol1⟩ hloop

theorem C1_no_double_release_witness : (⟨2, [0]⟩ : Heap).SafeFreed :=
  C1_no_double_release ⟨1, 1, 1, "outdir", "res"⟩
    ⟨none, fun _ => some [some 3], fun _ => -83, 1⟩ 1
    ⟨true, some 0, false, none, 0, none, ⟨0, []⟩⟩ 3
    ⟨.ok (), ⟨2, [0]⟩, some ⟨1, [some 3]⟩, none, true, none, false, none, 1,
      false, none, some ⟨0, [some (-83)]⟩⟩
    ⟨List.nodup_nil, by simp⟩ (fun v h => nomatch h)
    (by norm_num [solve, solveLoop, chosenIC, preSolveChecks,
      createInitialCondition, icEntry, cRound, tol, abs,
      TimeStepper.isTimeAtEnd, TimeStepper.getNextTime,
      TimeStepper.advanceOneTimeStep, Heap.alloc, Heap.destroy,
      closeFilesAndPostProcess, List.range, List.range.loop])

theorem solveLoop_failure (env : Env) (po : Bool) (ic0 : Vec) (wc : Bool) :
    ∀ (fuel : Nat) (s : LoopState) (out : SolveOutcome) (k : Nat),
      solveLoop env po ic0 wc fuel s = some out → out.failedAt = some k →
      env.solverResult k = none ∧ out.result = .error .solverFailure ∧
      out.mpSolver = none ∧ out.solverDeleted = true ∧
      (po = true → out.mpWriter = none ∧ out.postProcessed = true) := by
  intro fuel
  induction fuel with
  | zero => intro s out k h; simp [solveLoop] at h
  | succ n ih =>
    intro s out k h hfail
    rw [solveLoop] at h
    by_cases hend : s.stepper.isTimeAtEnd = true
    · rw [if_pos hend] at h
      injection h with h
      subst h
      exact absurd hfail (by simp)
    · rw [if_neg hend] at h
      cases hres : env.solverResult s.k with
      | none =>
        rw [hres] at h
        injection h with h
        subst h
        have hk : s.k = k := by injection hfail
        subst hk
        refine ⟨hres, rfl, rfl, rfl, ?_⟩
        intro hpo
        subst hpo
        exact ⟨rfl, rfl⟩
      | some data =>
        rw [hres] at h
        exact ih _ _ _ h hfail

/-- C4: if the solver signals failure at any iteration of the `Solve()` loop
(the recorded failing iteration really did fail), the orchestrator deletes
the solver and nulls its handle, closes the output files (the writer handle
is gone) and runs post-processing, and the outcome is exactly the original
solver failure re-raised — a mid-loop failure never returns normally. -/
theorem C4_failure_cleanup_and_rethrow (cfg : HeartConfig) (env : Env)
    (dim : Nat) (st : ProblemState) (fuel : Nat) (out : SolveOutcome) (k : Nat)
    (hrun : solve cfg env dim st fuel = some out)
    (hfail : out.failedAt = some k) :
    env.solverResult k = none ∧ out.result = .error .solverFailure ∧
    out.mpSolver = none ∧ out.solverDeleted = true ∧
    (st.printOutput = true → out.mpWriter = none ∧
      out.postProcessed = true) := by
  rcases solve_path cfg env dim st fuel out hrun with
    ⟨e, _, hout⟩ | ⟨_, _, hout⟩ | ⟨_, _, hcase⟩
  · rw [hout] at hfail
    exact absurd hfail (by simp)
  · rw [hout] at hfail
    exact absurd hfail (by simp)
  · rcases hcase with ⟨hpo, e, _, hout⟩ | ⟨hpo, ew, _, hloop⟩ | ⟨hpo, hloop⟩
    · rw [hout] at hfail
      exact absurd hfail (by simp)
    · have h := solveLoop_failure env true _ true fuel _ out k hloop hfail
      exact ⟨h.1, h.2.1, h.2.2.1, h.2.2.2.1, fun _ => h.2.2.2.2 rfl⟩
    · have h := solveLoop_failure env false _ false fuel _ out k hloop hfail
      refine ⟨h.1, h.2.1, h.2.2.1, h.2.2.2.1, ?_⟩
      intro hpo2
      rw [hpo] at hpo2
      exact nomatch hpo2

theorem C4_failure_cleanup_and_rethrow_witness :
    (fun _ => (none : Option (List (Option R)))) 0 = none ∧
    (Except.error ChasteError.solverFailure : Except ChasteError Unit) =
      .error .solverFailure ∧
    (none : Option Unit) = none ∧ true = true ∧
    (true = true → (none : Option WriterState) = none ∧ true = true) := by
  have hrun : solve ⟨1, 1, 1, "outdir", "res"⟩
      ⟨none, fun _ => none, fun _ => -83, 1⟩ 1
      ⟨true, some 0, true, none, 0, none, ⟨0, []⟩⟩ 1 =
      some ⟨.error .solverFailure, ⟨1, [0]⟩, none, none, true, none, true,
        some ⟨[(0, [some (-83)])]⟩, 0, true, some 0, some ⟨0, [some (-83)]⟩⟩ := by
    norm_num [solve, solveLoop, chosenIC, preSolveChecks, initialiseWriter,
      createInitialCondition, icEntry, cRound, tol, abs,
      TimeStepper.isTimeAtEnd, TimeStepper.getNextTime,
      TimeStepper.advanceOneTimeStep, Heap.alloc, Heap.destroy,
      closeFilesAndPostProcess, List.range, List.range.loop]
    simp
  exact C4_failure_cleanup_and_rethrow ⟨1, 1, 1, "outdir", "res"⟩
    ⟨none, fun _ => none, fun _ => -83, 1⟩ 1
    ⟨true, some 0, true, none, 0, none, ⟨0, []⟩⟩ 1
    ⟨.error .solverFailure, ⟨1, [0]⟩, none, none, true, none, true,
      some ⟨[(0, [some (-83)])]⟩, 0, true, some 0, some ⟨0, [some (-83)]⟩⟩ 0
    hrun rfl

/-- C3: on a repeated `Solve()` whose instance already holds a solution and
whose checkpoint file exists with last recorded time `lastT`, the writer is
opened in extend mode (keeping the existing rows) iff `lastT` does not exceed
the resume time `mCurrentTime`; otherwise `InitialiseWriter` raises the
resume-conflict error before any writer exists or row is written, and
`Solve()` exits with that error, the existing file unmodified, no writer
created. -/
theorem C3_resume_extend_iff (cfg : HeartConfig) (env : Env) (dim fuel : Nat)
    (st : ProblemState) (f : H5File) (lastT : R)
    (hsolution : st.mSolution.isSome = true)
    (hfile : env.file = some f)
    (hlast : (f.rows.map Prod.fst).getLast? = some lastT) :
    (lastT ≤ st.mCurrentTime →
      initialiseWriter st.mSolution.isSome env.file st.mCurrentTime =
        .ok (true, ⟨true, f.rows⟩)) ∧
    (st.mCurrentTime < lastT →
      initialiseWriter st.mSolution.isSome env.file st.mCurrentTime =
        .error (.resumeConflict lastT st.mCurrentTime) ∧
      ∀ out : SolveOutcome, st.printOutput = true →
        preSolveChecks cfg st.tissueId.isSome st.printOutput st.mCurrentTime =
          .ok () →
        st.mpSolver = none →
        solve cfg env dim st fuel = some out →
        out.file = some f ∧ out.writerCreated = false ∧ out.mpWriter = none ∧
        out.result = .error (.resumeConflict lastT st.mCurrentTime)) := by
  constructor
  · intro hle
    simp [initialiseWriter, hsolution, hfile, hlast, not_lt.mpr hle]
  · intro hgt
    have hiw : initialiseWriter st.mSolution.isSome env.file st.mCurrentTime =
        .error (.resumeConflict lastT st.mCurrentTime) := by
      simp [initialiseWriter, hsolution, hfile, hlast, hgt]
    refine ⟨hiw, ?_⟩
    intro out hpo hpre hsv hrun
    rcases solve_path cfg env dim st fuel out hrun with
      ⟨e, he, _⟩ | ⟨_, hsv2, _⟩ | ⟨_, _, hcase⟩
    · rw [hpre] at he
      cases he
    · rw [hsv] at hsv2
      simp at hsv2
    · rcases hcase with ⟨_, e, hiw2, hout⟩ | ⟨_, ew, hiw2, _⟩ | ⟨hpo2, _⟩
      · rw [hiw] at hiw2
        injection hiw2 with hiw2
        subst hiw2
        subst hout
        exact ⟨hfile, rfl, rfl, rfl⟩
      · rw [hiw] at hiw2
        cases hiw2
      · rw [hpo] at hpo2
        exact nomatch hpo2

theorem C3_resume_extend_iff_witness :
    initialiseWriter
      ((⟨true, some 0, true, some ⟨0, [some 5]⟩, 1/2, none, ⟨1, []⟩⟩ :
        ProblemState).mSolution).isSome
      ((⟨some ⟨[(3/4, [some 2])]⟩, fun _ => none, fun _ => 0, 1⟩ : Env)).file
      ((⟨true, some 0, true, some ⟨0, [some 5]⟩, 1/2, none, ⟨1, []⟩⟩ :
        ProblemState).mCurrentTime) =
      .error (.resumeConflict (3/4) (1/2)) :=
  ((C3_resume_extend_iff ⟨1, 1/10, 1/2, "outdir", "res"⟩
    ⟨some ⟨[(3/4, [some 2])]⟩, fun _ => none, fun _ => 0, 1⟩ 1 1
    ⟨true, some 0, true, some ⟨0, [some 5]⟩, 1/2, none, ⟨1, []⟩⟩
    ⟨[(3/4, [some 2])]⟩ (3/4) rfl rfl (by simp)).2 (by norm_num)).1

/-- C6: on a fresh run with output enabled (no prior solution, no existing
file, start time 0) whose end time equals the printing interval `d > 0`, and
whose solver returns the vector `data` on the single iteration, `Solve()`
writes the initial condition as the first checkpoint row (time 0) before the
loop and exactly one row for the single committed step: the closed file holds
exactly the 2 rows `[(0, initial condition), (d, solver result)]`. -/
theorem C6_fresh_run_two_rows (d pde : R) (dirS pfx : String)
    (oracle : Nat → Option (List (Option R))) (voltage : Nat → R)
    (n dim fuel nid tid : Nat) (fr : List Nat) (ms : Bool)
    (data : List (Option R))
    (hd : 0 < d)
    (hpde : |d - pde * (cRound (d / pde) : R)| ≤ tol)
    (hdir : dirS ≠ "") (hpfx : pfx ≠ "")
    (horacle : oracle 0 = some data) :
    solve ⟨d, pde, d, dirS, pfx⟩ ⟨none, oracle, voltage, n⟩ dim
        ⟨ms, some tid, true, none, 0, none, ⟨nid, fr⟩⟩ (fuel + 2) =
      some ⟨.ok (), ⟨nid + 2, nid :: fr⟩, some ⟨nid + 1, data⟩, none, true,
        none, true,
        some ⟨[(0, createInitialCondition dim n voltage), (d, data)]⟩, d, true,
        none, some ⟨nid, createInitialCondition dim n voltage⟩⟩ := by
  have hps : preSolveChecks ⟨d, pde, d, dirS, pfx⟩ true true 0 = .ok () := by
    unfold preSolveChecks
    rw [if_neg (by simp), if_neg (not_le.mpr hd), if_neg ?hout,
      if_neg (not_lt.mpr hpde)]
    case hout =>
      rintro ⟨_, h⟩
      rcases h with h | h
      · exact hdir h
      · exact hpfx h
  simp only [solve, chosenIC, initialiseWriter, solveLoop,
    TimeStepper.isTimeAtEnd, TimeStepper.advanceOneTimeStep,
    TimeStepper.getNextTime, Heap.alloc, Heap.destroy,
    closeFilesAndPostProcess, Option.isSome_some, Option.isSome_none, hps,
    horacle, zero_add, min_self, le_refl, not_le.mpr hd, decide_True,
    decide_False, if_true, if_false, Option.map_some, List.nil_append,
    decide_eq_true_eq]
  simp [not_le.mpr hd]

theorem C6_fresh_run_two_rows_witness :
    solve ⟨1, 1, 1, "outdir", "res"⟩
        ⟨none, fun _ => some [some 9], fun _ => -80, 2⟩ 1
        ⟨true, some 0, true, none, 0, none, ⟨0, []⟩⟩ (0 + 2) =
      some ⟨.ok (), ⟨0 + 2, 0 :: []⟩, some ⟨0 + 1, [some 9]⟩, none, true,
        none, true,
        some ⟨[(0, createInitialCondition 1 2 (fun _ => -80)), (1, [some 9])]⟩,
        1, true, none, some ⟨0, createInitialCondition 1 2 (fun _ => -80)⟩⟩ :=
  C6_fresh_run_two_rows 1 1 "outdir" "res" (fun _ => some [some 9])
    (fun _ => -80) 2 1 0 0 0 [] true [some 9] (by norm_num)
    (by norm_num [cRound, tol]) (by simp) (by simp) rfl

/-- C7: every `Initialise()` call resets current time to 0, destroys any
previously held solution vector (logging exactly one release of it and
leaving `mSolution` null, so a fresh initial condition will be built) and
rebuilds the tissue handle (it now holds the handle returned by the fresh
`CreateCardiacTissue()` call); it fails with the "No mesh given" error when
no mesh was supplied and none can be obtained from configuration. -/
theorem C7_initialise (canGet : Bool) (newTid : Nat) (st : ProblemState) :
    (st.meshSupplied = false ∧ canGet = false →
      initialiseProblem canGet newTid st = .error .noMeshGiven) ∧
    (st.meshSupplied = true ∨ canGet = true →
      ∃ st2, initialiseProblem canGet newTid st = .ok st2 ∧
        st2.mCurrentTime = 0 ∧ st2.mSolution = none ∧
        st2.tissueId = some newTid ∧
        (∀ v, st.mSolution = some v →
          st2.heap.freedIds = v.id :: st.heap.freedIds) ∧
        (st.mSolution = none → st2.heap = st.heap)) := by
  constructor
  · intro h
    unfold initialiseProblem
    rw [if_pos h]
  · intro hor
    have hcond : ¬(st.meshSupplied = false ∧ canGet = false) := by
      rintro ⟨h1, h2⟩
      rcases hor with h | h
      · rw [h] at h1
        exact nomatch h1
      · rw [h] at h2
        exact nomatch h2
    unfold initialiseProblem
    rw [if_neg hcond]
    refine ⟨_, rfl, rfl, rfl, rfl, ?_, ?_⟩
    · intro v hv
      simp only [hv]
      rfl
    · intro hv
      simp only [hv]

theorem C7_initialise_witness :
    ∃ st2, initialiseProblem true 5
        ⟨true, some 0, true, some ⟨3, [some 1]⟩, 7, none, ⟨4, []⟩⟩ =
        .ok st2 ∧
      st2.mCurrentTime = 0 ∧ st2.mSolution = none ∧
      st2.tissueId = some 5 ∧
      (∀ v, (⟨true, some 0, true, some ⟨3, [some 1]⟩, 7, none, ⟨4, []⟩⟩ :
          ProblemState).mSolution = some v →
        st2.heap.freedIds = v.id :: []) ∧
      ((⟨true, some 0, true, some ⟨3, [some 1]⟩, 7, none, ⟨4, []⟩⟩ :
          ProblemState).mSolution = none → st2.heap = ⟨4, []⟩) :=
  (C7_initialise true 5
    ⟨true, some 0, true, some ⟨3, [some 1]⟩, 7, none, ⟨4, []⟩⟩).2 (Or.inl rfl)

/-- C8: in extra-variable output, for every requested variable name the
`"__IDX__"` suffix selects among the up to three per-node cell models — no
suffix means index 0, the primary model queried with the full name; a parsed
suffix `k < 3` queries cell model `k+1` with the truncated name — and for
every node flagged as bath the emitted value is exactly 0 with no cell model
queried; a concrete parse: `"Cai__IDX__2"` selects index 2 with name
`"Cai"`. -/
theorem C8_extra_variables (lk : CellLookup) (isBath : Nat → Bool) (t : R)
    (node : Nat) (full : List Char) :
    (∀ kv, parseExtraVarName full = some kv → isBath node = true →
      writeExtraVariableNodeValue lk isBath t full node = some 0) ∧
    (findSeqFrom idxPattern full = none → isBath node = false →
      writeExtraVariableNodeValue lk isBath t full node =
        some (lk.getAnyVariable1 node full t)) ∧
    (∀ k varName, parseExtraVarName full = some (k, varName) →
      isBath node = false →
      ((k = 0 → writeExtraVariableNodeValue lk isBath t full node =
          some (lk.getAnyVariable1 node varName t)) ∧
       (k = 1 → writeExtraVariableNodeValue lk isBath t full node =
          some (lk.getAnyVariable2 node varName t)) ∧
       (k = 2 → writeExtraVariableNodeValue lk isBath t full node =
          some (lk.getAnyVariable3 node varName t)))) ∧
    parseExtraVarName ("Cai__IDX__2".toList) = some (2, "Cai".toList) := by
  refine ⟨?_, ?_, ?_, ?_⟩
  · intro kv hp hb
    simp [writeExtraVariableNodeValue, hp, hb]
  · intro hno hb
    have hp : parseExtraVarName full = some (0, full) := by
      unfold parseExtraVarName
      rw [hno]
    simp [writeExtraVariableNodeValue, hp, hb]
  · intro k varName hp hb
    refine ⟨?_, ?_, ?_⟩ <;> intro hk <;> subst hk <;>
      simp [writeExtraVariableNodeValue, hp, hb]
  · rfl

theorem C8_extra_variables_witness :
    writeExtraVariableNodeValue
      ⟨fun _ _ _ => 11, fun _ _ _ => 22, fun _ _ _ => 33⟩
      (fun _ => true) 0 ("V".toList) 0 = some 0 ∧
    writeExtraVariableNodeValue
      ⟨fun _ _ _ => 11, fun _ _ _ => 22, fun _ _ _ => 33⟩
      (fun _ => false) 0 ("Cai__IDX__2".toList) 0 = some 33 :=
  ⟨(C8_extra_variables ⟨fun _ _ _ => 11, fun _ _ _ => 22, fun _ _ _ => 33⟩
      (fun _ => true) 0 0 ("V".toList)).1 (0, "V".toList) rfl rfl,
   ((C8_extra_variables ⟨fun _ _ _ => 11, fun _ _ _ => 22, fun _ _ _ => 33⟩
      (fun _ => false) 0 0 ("Cai__IDX__2".toList)).2.2.1 2 ("Cai".toList)
      rfl rfl).2.2 rfl⟩

end Chaste
